import Mathlib

/-!
Shallow embedding of src/server.js, an email-OTP registration and login
service.  Pure state (the two JSON files users.json and otps.json) is modelled
as explicit lists threaded through each handler; clock reads (Date.now()) and
random draws (Math.random()) are explicit parameters; the external mail
transport is modelled by a DispatchOutcome parameter.  Times are milliseconds
as Nat.
-/

namespace OtpServer

/-- Models the JS email normalization `email?.toLowerCase().trim()`
(lines 122): lowercase every character, then strip leading and trailing
whitespace.  Implemented on the character list (ASCII model of the JS
string operations) so that it evaluates in the kernel. -/
def normalizeEmail (s : String) : String :=
  String.mk
    ((((s.toList.map Char.toLower).dropWhile Char.isWhitespace).reverse.dropWhile
        Char.isWhitespace).reverse)

/-- One entry of otps.json: `{ email, otp, expires }` (line 129). -/
structure OtpRecord where
  email : String
  otp : String
  expires : Nat
deriving Repr, DecidableEq

/-- One entry of users.json: the object built at lines 202-209. -/
structure User where
  id : Nat
  profile_id : String
  name : String
  email : String
  password_plain : String
  created_at : String
deriving Repr, DecidableEq

/-- The alphabet of `generateUniqueBGMIId` (line 62). -/
def bgmiChars : List Char := "ABCDEFGHIJKLMNOPQRSTUVWXYZ0123456789".toList

/-- `chars[Math.floor(Math.random() * chars.length)]`: one uniform draw,
modelled as an index into the 36-character alphabet. -/
def charOf (i : Fin 36) : Char := bgmiChars.getD i.val 'A'

/-- One loop body of `generateUniqueBGMIId` (lines 65-69): five draws
concatenated and prefixed with the literal. -/
def drawCode (draw : Fin 5 → Fin 36) : String :=
  String.mk ((List.finRange 5).map (fun i => charOf (draw i)))

/-- `generateUniqueBGMIId` (lines 61-72).  The do-while retry loop consumes
one element of `draws` (the stream of random draws) per iteration; `none`
models the run in which every supplied draw collides (in JS the loop would
keep drawing). -/
def generateUniqueBGMIId (users : List User) : List (Fin 5 → Fin 36) → Option String
  | [] => none
  | draw :: rest =>
    let id := "BGMI-" ++ drawCode draw
    if users.any (fun u => u.profile_id == id) then generateUniqueBGMIId users rest
    else some id

/-- Modelled from the spec: the jsonwebtoken library is an external
dependency, not part of src/.  Per the spec, a Session Token is an opaque
signed credential encoding the account id and an issuance timestamp, with a
7-day validity window, verifiable without storage.  We model a signed token
as its payload plus the signing secret standing in for the signature. -/
structure SessionToken where
  accountId : Nat
  issuedAt : Nat
  sig : String
deriving Repr, DecidableEq

def sevenDaysMs : Nat := 7 * 24 * 60 * 60 * 1000

/-- Modelled from the spec: `jwt.sign({ id }, JWT_SECRET, { expiresIn: "7d" })`
(lines 215, 239). -/
def jwtSign (accountId : Nat) (secret : String) (now : Nat) : SessionToken :=
  { accountId := accountId, issuedAt := now, sig := secret }

/-- Modelled from the spec: `jwt.verify(token, JWT_SECRET)` (line 83) —
succeeds exactly when the signature matches the secret and the token is
within its 7-day validity window, yielding the encoded payload. -/
def jwtVerify (tok : SessionToken) (secret : String) (now : Nat) : Option Nat :=
  if tok.sig = secret ∧ now < tok.issuedAt + sevenDaysMs then some tok.accountId else none

/-- Outcome of handing the OTP to the mail transport (section 4.4 of the
spec): the `await transporter.sendMail` succeeds (`Delivered`), throws
(`Failed`, line 161), or is bypassed because no transporter is configured or
NODE_ENV is production (`Skipped`, line 164). -/
inductive DispatchOutcome
  | Delivered
  | Failed
  | Skipped
deriving Repr, DecidableEq

/-- `Math.floor(100000 + Math.random() * 900000).toString()` (line 125):
the random draw is a parameter `r < 900000`. -/
def otpCodeOf (r : Fin 900000) : String := Nat.repr (100000 + r.val)

def fiveMinutesMs : Nat := 5 * 60 * 1000

/-- The filter predicate `(o) => o.email !== email` used when replacing a
prior OTP record (line 128) and when consuming one (line 213). -/
def otherEmail (email : String) (o : OtpRecord) : Bool := o.email != email

/-- The find predicate of line 192-193:
`o.email === email && o.otp === code && o.expires > Date.now()`. -/
def otpValid (email code : String) (now : Nat) (o : OtpRecord) : Bool :=
  o.email == email && (o.otp == code && decide (o.expires > now))

/-- The find predicate of line 199: `u.email === email`. -/
def sameUserEmail (email : String) (u : User) : Bool := u.email == email

/-- The find predicate of lines 233-235:
`u.email === email && u.password_plain === password`. -/
def loginMatch (email password : String) (u : User) : Bool :=
  u.email == email && u.password_plain == password

/-- Responses of POST /auth/send-otp.  `emailRequired` is the 400 error;
`sentNoEcho` is the success response of line 157 (no otp field);
`screenOtp` is the success response of line 170, which echoes the raw
code in the body. -/
inductive SendOtpResult
  | emailRequired
  | sentNoEcho
  | screenOtp (otp : String)
deriving Repr, DecidableEq

/-- POST /auth/send-otp (lines 120-180).  Returns the new otps.json
contents and the HTTP response.  `bodyEmail = none` models a missing
`req.body.email`; the random draw `r`, the clock `now` and the dispatch
outcome are parameters. -/
def sendOtp (bodyEmail : Option String) (r : Fin 900000) (now : Nat)
    (outcome : DispatchOutcome) (otps : List OtpRecord) :
    List OtpRecord × SendOtpResult :=
  match bodyEmail with
  | none => (otps, .emailRequired)
  | some s =>
    let email := normalizeEmail s
    if email = "" then (otps, .emailRequired)
    else
      let otp := otpCodeOf r
      let otps2 := otps.filter (otherEmail email) ++
        [{ email := email, otp := otp, expires := now + fiveMinutesMs }]
      match outcome with
      | .Delivered => (otps2, .sentNoEcho)
      | .Failed => (otps2, .screenOtp otp)
      | .Skipped => (otps2, .screenOtp otp)

/-- Responses of POST /auth/verify-otp: the three 400 errors and the
success response `{ success, user, token }` of line 218. -/
inductive VerifyResult
  | missingFields
  | invalidOtp
  | userExists
  | ok (user : User) (token : SessionToken)
deriving Repr, DecidableEq

/-- POST /auth/verify-otp (lines 185-223).  Arguments are the four request
body fields (`none` = absent), the clock, the `created_at` string, the
stream of random draws for the profile-id generator, the signing secret and
the two stores.  Returns `none` when the profile-id retry loop exhausts the
supplied draws (JS would keep looping), otherwise the new stores and the
response.  Note: the request email is used verbatim, the handler does not
normalize it. -/
def verifyOtpChecked (nm email password code : String) (now : Nat)
    (createdAt : String) (draws : List (Fin 5 → Fin 36)) (secret : String)
    (otps : List OtpRecord) (users : List User) :
    Option (List OtpRecord × List User × VerifyResult) :=
  if nm = "" ∨ email = "" ∨ password = "" ∨ code = "" then
    some (otps, users, .missingFields)
  else
    match otps.find? (otpValid email code now) with
    | none => some (otps, users, .invalidOtp)
    | some _ =>
      match users.find? (sameUserEmail email) with
      | some _ => some (otps, users, .userExists)
      | none =>
        match generateUniqueBGMIId users draws with
        | none => none
        | some pid =>
          let user : User :=
            { id := now, profile_id := pid, name := nm, email := email,
              password_plain := password, created_at := createdAt }
          some (otps.filter (otherEmail email), users ++ [user],
            .ok user (jwtSign user.id secret now))

/-- POST /auth/verify-otp, entry point: destructures the request body
(line 187); an absent field is `none` and fails the falsy check of
line 188 just like an empty string does. -/
def verifyOtp (nameF emailF passwordF codeF : Option String) (now : Nat)
    (createdAt : String) (draws : List (Fin 5 → Fin 36)) (secret : String)
    (otps : List OtpRecord) (users : List User) :
    Option (List OtpRecord × List User × VerifyResult) :=
  match nameF, emailF, passwordF, codeF with
  | some nm, some email, some password, some code =>
    verifyOtpChecked nm email password code now createdAt draws secret otps users
  | _, _, _, _ => some (otps, users, .missingFields)

/-- Responses of POST /auth/login (lines 228-244). -/
inductive LoginResult
  | invalidCredentials
  | ok (user : User) (token : SessionToken)
deriving Repr, DecidableEq

/-- POST /auth/login (lines 228-244).  The request email is used verbatim,
the handler does not normalize it. -/
def login (email password : String) (now : Nat) (secret : String)
    (users : List User) : LoginResult :=
  match users.find? (loginMatch email password) with
  | none => .invalidCredentials
  | some u => .ok u (jwtSign u.id secret now)

/-- Results of authMiddleware (lines 77-89): 401 No token, 401 Invalid
token, or the decoded account id stored in `req.userId`. -/
inductive AuthResult
  | noToken
  | invalidToken
  | ok (userId : Nat)
deriving Repr, DecidableEq

/-- authMiddleware (lines 77-89): the token-verification gate.  The
Authorization header is modelled as the optional token it carries. -/
def authMiddleware (header : Option SessionToken) (secret : String) (now : Nat) :
    AuthResult :=
  match header with
  | none => .noToken
  | some tok =>
    match jwtVerify tok secret now with
    | none => .invalidToken
    | some uid => .ok uid

/-- The public field subset returned by GET /me (lines 255-260). -/
structure ProfileView where
  profile_id : String
  name : String
  email : String
  created_at : String
deriving Repr, DecidableEq

/-- Responses of GET /me after the auth gate (lines 249-264). -/
inductive MeResult
  | userNotFound
  | ok (p : ProfileView)
deriving Repr, DecidableEq

/-- GET /me (lines 249-264): look up the user by the decoded id and return
the four public fields only. -/
def getProfile (userId : Nat) (users : List User) : MeResult :=
  match users.find? (fun u => u.id == userId) with
  | none => .userNotFound
  | some u => .ok { profile_id := u.profile_id, name := u.name,
                    email := u.email, created_at := u.created_at }

/-- The shape claimed for generated profile ids: the literal prefix
BGMI- followed by exactly five characters of the 36-symbol
uppercase-alphanumeric alphabet. -/
def isBgmiId (s : String) : Bool :=
  decide (s.toList.length = 10) &&
  decide (s.toList.take 5 = "BGMI-".toList) &&
  (s.toList.drop 5).all (fun c => bgmiChars.contains c)

end OtpServer

namespace OtpServer

theorem sendOtp_fst (s : String) (r : Fin 900000) (now : Nat) (oc : DispatchOutcome)
    (otps : List OtpRecord) (h : normalizeEmail s ≠ "") :
    (sendOtp (some s) r now oc otps).1 =
      otps.filter (otherEmail (normalizeEmail s)) ++
        [{ email := normalizeEmail s, otp := otpCodeOf r,
           expires := now + fiveMinutesMs }] := by
  cases oc <;> simp [sendOtp, h]

theorem sendOtp_snd (s : String) (r : Fin 900000) (now : Nat)
    (otps : List OtpRecord) (h : normalizeEmail s ≠ "") :
    (sendOtp (some s) r now .Delivered otps).2 = .sentNoEcho ∧
    (sendOtp (some s) r now .Failed otps).2 = .screenOtp (otpCodeOf r) ∧
    (sendOtp (some s) r now .Skipped otps).2 = .screenOtp (otpCodeOf r) := by
  refine ⟨?_, ?_, ?_⟩ <;> simp [sendOtp, h]

theorem verifyOtp_eq_checked (nm email pw code : String) (now : Nat) (ca : String)
    (draws : List (Fin 5 → Fin 36)) (secret : String)
    (otps : List OtpRecord) (users : List User) :
    verifyOtp (some nm) (some email) (some pw) (some code) now ca draws secret otps users
      = verifyOtpChecked nm email pw code now ca draws secret otps users := rfl

theorem verifyOtp_invalid_of {nm email pw code : String} {now : Nat} {ca : String}
    {draws : List (Fin 5 → Fin 36)} {secret : String}
    {otps : List OtpRecord} {users : List User}
    (hnm : nm ≠ "") (he : email ≠ "") (hp : pw ≠ "") (hc : code ≠ "")
    (hno : ∀ o ∈ otps, ¬(o.email = email ∧ o.otp = code ∧ o.expires > now)) :
    verifyOtp (some nm) (some email) (some pw) (some code) now ca draws secret otps users
      = some (otps, users, .invalidOtp) := by
  have hfind : otps.find? (otpValid email code now) = none := by
    rw [List.find?_eq_none]
    intro x hx
    simpa [otpValid, -decide_not] using hno x hx
  rw [verifyOtp_eq_checked]
  unfold verifyOtpChecked
  rw [if_neg (by simp [hnm, he, hp, hc]), hfind]

theorem verifyOtp_userExists_of {nm email pw code : String} {now : Nat} {ca : String}
    {draws : List (Fin 5 → Fin 36)} {secret : String}
    {otps : List OtpRecord} {users : List User}
    (hnm : nm ≠ "") (he : email ≠ "") (hp : pw ≠ "") (hc : code ≠ "")
    (hrec : ∃ r ∈ otps, r.email = email ∧ r.otp = code ∧ r.expires > now)
    (hv : ∃ v ∈ users, v.email = email) :
    verifyOtp (some nm) (some email) (some pw) (some code) now ca draws secret otps users
      = some (otps, users, .userExists) := by
  obtain ⟨r, hrm, hre, hrc, hrx⟩ := hrec
  obtain ⟨v, hvm, hve⟩ := hv
  have h1 : (otps.find? (otpValid email code now)).isSome := by
    rw [List.find?_isSome]
    exact ⟨r, hrm, by simp [otpValid, hre, hrc, hrx]⟩
  have h2 : (users.find? (sameUserEmail email)).isSome := by
    rw [List.find?_isSome]
    exact ⟨v, hvm, by simp [sameUserEmail, hve]⟩
  obtain ⟨r0, hr0⟩ := Option.isSome_iff_exists.mp h1
  obtain ⟨v0, hv0⟩ := Option.isSome_iff_exists.mp h2
  rw [verifyOtp_eq_checked]
  unfold verifyOtpChecked
  rw [if_neg (by simp [hnm, he, hp, hc]), hr0, hv0]

theorem verifyOtp_ok_inv {nm email pw code : String} {now : Nat} {ca : String}
    {draws : List (Fin 5 → Fin 36)} {secret : String}
    {otps otps' : List OtpRecord} {users users' : List User}
    {u : User} {tok : SessionToken}
    (h : verifyOtp (some nm) (some email) (some pw) (some code) now ca draws secret otps users
      = some (otps', users', .ok u tok)) :
    nm ≠ "" ∧ email ≠ "" ∧ pw ≠ "" ∧ code ≠ "" ∧
    otps' = otps.filter (otherEmail email) ∧
    users' = users ++ [u] ∧
    u.id = now ∧ u.name = nm ∧ u.email = email ∧ u.password_plain = pw ∧
    u.created_at = ca ∧
    tok = jwtSign now secret now ∧
    (∃ r ∈ otps, r.email = email ∧ r.otp = code ∧ r.expires > now) ∧
    (∀ v ∈ users, v.email ≠ email) ∧
    generateUniqueBGMIId users draws = some u.profile_id := by
  rw [verifyOtp_eq_checked] at h
  unfold verifyOtpChecked at h
  split at h
  case isTrue hcond => simp at h
  case isFalse hcond =>
    push_neg at hcond
    obtain ⟨hnm, he, hp, hc⟩ := hcond
    cases hf : otps.find? (otpValid email code now) with
    | none => rw [hf] at h; simp at h
    | some r0 =>
      rw [hf] at h
      cases hu : users.find? (sameUserEmail email) with
      | some v0 => rw [hu] at h; simp at h
      | none =>
        rw [hu] at h
        cases hg : generateUniqueBGMIId users draws with
        | none => rw [hg] at h; simp at h
        | some pid =>
          rw [hg] at h
          simp only [Option.some.injEq, Prod.mk.injEq, VerifyResult.ok.injEq] at h
          obtain ⟨ho, hus, huu, htok⟩ := h
          subst ho hus huu htok
          have hrm := List.mem_of_find?_eq_some hf
          have hrp := List.find?_some hf
          have hur := List.find?_eq_none.mp hu
          refine ⟨hnm, he, hp, hc, rfl, rfl, rfl, rfl, rfl, rfl, rfl, rfl,
            ⟨r0, hrm, ?_⟩, ?_, rfl⟩
          · simpa [otpValid] using hrp
          · intro v hv
            have := hur v hv
            simpa [sameUserEmail] using this

end OtpServer

namespace OtpServer

theorem verifyOtp_state_cases {nm email pw code : String} {now : Nat} {ca : String}
    {draws : List (Fin 5 → Fin 36)} {secret : String}
    {otps otps' : List OtpRecord} {users users' : List User} {res : VerifyResult}
    (h : verifyOtp (some nm) (some email) (some pw) (some code) now ca draws secret otps users
      = some (otps', users', res)) :
    (otps' = otps ∧ users' = users ∧
      (res = .missingFields ∨ res = .invalidOtp ∨ res = .userExists)) ∨
    (∃ u tok, res = .ok u tok ∧ otps' = otps.filter (otherEmail email) ∧
      users' = users ++ [u] ∧ u.email = email ∧ (∀ v ∈ users, v.email ≠ email)) := by
  rw [verifyOtp_eq_checked] at h
  unfold verifyOtpChecked at h
  split at h
  case isTrue hcond =>
    simp only [Option.some.injEq, Prod.mk.injEq] at h
    exact Or.inl ⟨h.1.symm, h.2.1.symm, Or.inl h.2.2.symm⟩
  case isFalse hcond =>
    cases hf : otps.find? (otpValid email code now) with
    | none =>
      rw [hf] at h
      simp only [Option.some.injEq, Prod.mk.injEq] at h
      exact Or.inl ⟨h.1.symm, h.2.1.symm, Or.inr (Or.inl h.2.2.symm)⟩
    | some r0 =>
      rw [hf] at h
      cases hu : users.find? (sameUserEmail email) with
      | some v0 =>
        rw [hu] at h
        simp only [Option.some.injEq, Prod.mk.injEq] at h
        exact Or.inl ⟨h.1.symm, h.2.1.symm, Or.inr (Or.inr h.2.2.symm)⟩
      | none =>
        rw [hu] at h
        cases hg : generateUniqueBGMIId users draws with
        | none => rw [hg] at h; simp at h
        | some pid =>
          rw [hg] at h
          simp only [Option.some.injEq, Prod.mk.injEq] at h
          obtain ⟨ho, hus, hres⟩ := h
          have hur := List.find?_eq_none.mp hu
          refine Or.inr ⟨_, _, hres.symm, ho.symm, hus.symm, rfl, ?_⟩
          intro v hv
          have := hur v hv
          simpa [sameUserEmail] using this

theorem login_ok_inv {email pw : String} {now : Nat} {secret : String}
    {users : List User} {u : User} {tok : SessionToken}
    (h : login email pw now secret users = .ok u tok) :
    u ∈ users ∧ u.email = email ∧ u.password_plain = pw ∧
    tok = jwtSign u.id secret now := by
  unfold login at h
  cases hf : users.find? (loginMatch email pw) with
  | none => rw [hf] at h; simp at h
  | some u0 =>
    rw [hf] at h
    simp only [LoginResult.ok.injEq] at h
    obtain ⟨hu, htok⟩ := h
    subst hu
    have hm := List.mem_of_find?_eq_some hf
    have hp := List.find?_some hf
    simp only [loginMatch, Bool.and_eq_true, beq_iff_eq] at hp
    exact ⟨hm, hp.1, hp.2, htok.symm⟩

theorem getProfile_ok_inv {uid : Nat} {users : List User} {p : ProfileView}
    (h : getProfile uid users = .ok p) :
    ∃ u, u ∈ users ∧ u.id = uid ∧
      p = { profile_id := u.profile_id, name := u.name, email := u.email,
            created_at := u.created_at } := by
  unfold getProfile at h
  cases hf : users.find? (fun u => u.id == uid) with
  | none => rw [hf] at h; simp at h
  | some u0 =>
    rw [hf] at h
    simp only [MeResult.ok.injEq] at h
    have hm := List.mem_of_find?_eq_some hf
    have hp := List.find?_some hf
    simp only [beq_iff_eq] at hp
    exact ⟨u0, hm, hp, h.symm⟩

theorem charOf_mem (i : Fin 36) : bgmiChars.contains (charOf i) = true := by
  fin_cases i <;> decide

theorem isBgmiId_draw (draw : Fin 5 → Fin 36) :
    isBgmiId ("BGMI-" ++ drawCode draw) = true := by
  have hlen : ("BGMI-".toList).length = 5 := rfl
  have hdata : ("BGMI-" ++ drawCode draw).toList
      = "BGMI-".toList ++ (List.finRange 5).map (fun i => charOf (draw i)) := by
    simp [drawCode, String.toList, String.data_append, String.mk]
  simp only [isBgmiId, hdata, Bool.and_eq_true, decide_eq_true_eq, List.all_eq_true]
  refine ⟨⟨?_, ?_⟩, ?_⟩
  · simp
  · rw [List.take_left' hlen]
  · intro c hc
    rw [List.drop_left' hlen] at hc
    obtain ⟨i, hi, hci⟩ := List.mem_map.mp hc
    subst hci
    exact charOf_mem (draw i)

end OtpServer

namespace OtpServer

theorem generateUniqueBGMIId_some (users : List User) (draws : List (Fin 5 → Fin 36)) :
    ∀ id, generateUniqueBGMIId users draws = some id →
      (∀ u ∈ users, u.profile_id ≠ id) ∧ isBgmiId id = true := by
  induction draws with
  | nil =>
    intro id h
    simp [generateUniqueBGMIId] at h
  | cons draw rest ih =>
    intro id h
    simp only [generateUniqueBGMIId] at h
    split at h
    · exact ih id h
    · rename_i hc
      rw [Bool.not_eq_true, List.any_eq_false] at hc
      simp only [Option.some.injEq] at h
      subst h
      refine ⟨?_, isBgmiId_draw draw⟩
      intro u hu
      have := hc u hu
      simpa using this

end OtpServer

namespace OtpServer

/-- C1 counterexample: an account stored with email `a@b.com` and password
`p` logs in with the exact string, but the case variant `A@b.com` with the
same correct password fails `InvalidCredentials` — the claim that every
operation normalizes the email so variants are the same key is false for
Login (and VerifyAndRegister), which compare the raw string. -/
theorem c1_counterexample :
    login "a@b.com" "p" 0 "s"
        [{ id := 1, profile_id := "BGMI-AAAAA", name := "x", email := "a@b.com",
           password_plain := "p", created_at := "t" }]
      = .ok { id := 1, profile_id := "BGMI-AAAAA", name := "x", email := "a@b.com",
              password_plain := "p", created_at := "t" }
          { accountId := 1, issuedAt := 0, sig := "s" } ∧
    login "A@b.com" "p" 0 "s"
        [{ id := 1, profile_id := "BGMI-AAAAA", name := "x", email := "a@b.com",
           password_plain := "p", created_at := "t" }]
      = .invalidCredentials := by
  exact ⟨by decide, by decide⟩

/-- C1 (amended): only RequestOTP normalizes the email (lowercase + trim)
before storage; VerifyAndRegister and Login use the raw request string for
comparison and storage, so case or whitespace variants are distinct keys
there. -/
theorem c1_email_normalization :
    (∀ (s : String) (r : Fin 900000) (now : Nat) (oc : DispatchOutcome)
        (otps : List OtpRecord), normalizeEmail s ≠ "" →
        (sendOtp (some s) r now oc otps).1 =
          otps.filter (otherEmail (normalizeEmail s)) ++
            [{ email := normalizeEmail s, otp := otpCodeOf r,
               expires := now + fiveMinutesMs }]) ∧
    (∀ (email pw : String) (now : Nat) (secret : String) (users : List User)
        (u : User) (tok : SessionToken),
        login email pw now secret users = .ok u tok →
        u.email = email ∧ u.password_plain = pw) ∧
    (∀ (nm email pw code : String) (now : Nat) (ca : String)
        (draws : List (Fin 5 → Fin 36)) (secret : String)
        (otps otps' : List OtpRecord) (users users' : List User)
        (u : User) (tok : SessionToken),
        verifyOtp (some nm) (some email) (some pw) (some code) now ca draws secret
            otps users = some (otps', users', .ok u tok) →
        u.email = email) := by
  refine ⟨fun s r now oc otps h => sendOtp_fst s r now oc otps h,
    fun email pw now secret users u tok h =>
      ⟨(login_ok_inv h).2.1, (login_ok_inv h).2.2.1⟩,
    fun nm email pw code now ca draws secret otps otps' users users' u tok h => ?_⟩
  obtain ⟨-, -, -, -, -, -, -, -, he, -⟩ := verifyOtp_ok_inv h
  exact he

/-- C1 witness: the amended theorem applied at concrete inputs — the
send-otp handler normalizes a mixed-case padded email, and a concrete
successful login returns the account whose stored email equals the raw
request string. -/
theorem c1_email_normalization_witness :
    (sendOtp (some " A@B.com ") (⟨0, by omega⟩ : Fin 900000) 0 .Skipped []).1 =
      ([] : List OtpRecord).filter (otherEmail (normalizeEmail " A@B.com ")) ++
        [{ email := normalizeEmail " A@B.com ", otp := otpCodeOf ⟨0, by omega⟩,
           expires := 0 + fiveMinutesMs }] ∧
    (({ id := 1, profile_id := "BGMI-AAAAA", name := "x", email := "a@b.com",
        password_plain := "p", created_at := "t" } : User).email = "a@b.com" ∧
     ({ id := 1, profile_id := "BGMI-AAAAA", name := "x", email := "a@b.com",
        password_plain := "p", created_at := "t" } : User).password_plain = "p") :=
  ⟨c1_email_normalization.1 " A@B.com " ⟨0, by omega⟩ 0 .Skipped [] (by decide),
   c1_email_normalization.2.1 "a@b.com" "p" 0 "s"
     [{ id := 1, profile_id := "BGMI-AAAAA", name := "x", email := "a@b.com",
        password_plain := "p", created_at := "t" }]
     { id := 1, profile_id := "BGMI-AAAAA", name := "x", email := "a@b.com",
       password_plain := "p", created_at := "t" }
     { accountId := 1, issuedAt := 0, sig := "s" } (by decide)⟩

end OtpServer

namespace OtpServer

/-- C2 counterexample: two OTPs issued in sequence for `a@b.com` happen to
draw the same random code `100000`; the first response disclosed `100000`,
and after the second issue that previously issued code still verifies (and
registers an account) — the claim that the previously issued code never
verifies after a second issue is false when the fresh draw repeats the
code. -/
theorem c2_counterexample :
    (sendOtp (some "a@b.com") ⟨0, by omega⟩ 0 .Skipped []).2
      = .screenOtp "100000" ∧
    (sendOtp (some "a@b.com") ⟨0, by omega⟩ 1 .Skipped
        (sendOtp (some "a@b.com") ⟨0, by omega⟩ 0 .Skipped []).1).1
      = [{ email := "a@b.com", otp := "100000", expires := 300001 }] ∧
    verifyOtp (some "n") (some "a@b.com") (some "p") (some "100000") 2 "t"
        [fun _ => ⟨0, by omega⟩] "s"
        [{ email := "a@b.com", otp := "100000", expires := 300001 }] []
      = some ([],
          [{ id := 2, profile_id := "BGMI-AAAAA", name := "n", email := "a@b.com",
             password_plain := "p", created_at := "t" }],
          .ok { id := 2, profile_id := "BGMI-AAAAA", name := "n", email := "a@b.com",
                password_plain := "p", created_at := "t" }
            { accountId := 2, issuedAt := 2, sig := "s" }) := by
  exact ⟨by decide, by decide, by decide⟩

/-- C2 (amended): issuing a new OTP removes every prior record for that
email before appending the new one — afterwards exactly one record exists
for that email and records of other emails are untouched — and any code
other than the newly issued one (in particular a previously issued code
that differs from it) no longer verifies. -/
theorem c2_issue_replaces :
    ∀ (s : String) (r : Fin 900000) (now : Nat) (oc : DispatchOutcome)
      (otps : List OtpRecord), normalizeEmail s ≠ "" →
      ((sendOtp (some s) r now oc otps).1.filter
          (fun o => o.email == normalizeEmail s)
        = [{ email := normalizeEmail s, otp := otpCodeOf r,
             expires := now + fiveMinutesMs }]) ∧
      (∀ e2 : String, e2 ≠ normalizeEmail s →
        (sendOtp (some s) r now oc otps).1.filter (fun o => o.email == e2)
          = otps.filter (fun o => o.email == e2)) ∧
      (∀ c1 : String, c1 ≠ otpCodeOf r →
        ∀ (nm pw : String) (now2 : Nat) (ca : String)
          (draws : List (Fin 5 → Fin 36)) (secret : String) (users : List User),
          nm ≠ "" → pw ≠ "" → c1 ≠ "" →
          verifyOtp (some nm) (some (normalizeEmail s)) (some pw) (some c1) now2 ca
              draws secret (sendOtp (some s) r now oc otps).1 users
            = some ((sendOtp (some s) r now oc otps).1, users, .invalidOtp)) := by
  intro s r now oc otps h
  set e := normalizeEmail s with he
  have hfst := sendOtp_fst s r now oc otps h
  refine ⟨?_, ?_, ?_⟩
  · rw [hfst, List.filter_append]
    have h1 : (otps.filter (otherEmail e)).filter (fun o => o.email == e) = [] := by
      rw [List.filter_eq_nil_iff]
      intro o ho
      have := (List.mem_filter.mp ho).2
      simp only [otherEmail, bne_iff_ne, ne_eq] at this
      simpa using this
    rw [h1]
    simp
  · intro e2 hne
    rw [hfst, List.filter_append]
    have h1 : List.filter (fun o => o.email == e2)
        [({ email := e, otp := otpCodeOf r, expires := now + fiveMinutesMs } : OtpRecord)]
        = [] := by
      simp [hne.symm]
    rw [h1, List.filter_filter]
    have h2 : ∀ o ∈ otps, ((o.email == e2) && otherEmail e o) = (o.email == e2) := by
      intro o ho
      by_cases hoe : o.email = e2
      · simp [otherEmail, hoe, hne]
      · simp [hoe]
    rw [List.append_nil, List.filter_congr h2]
  · intro c1 hc1 nm pw now2 ca draws secret users hnm hpw hc
    rw [hfst]
    refine verifyOtp_invalid_of hnm h hpw hc ?_
    intro o ho hmatch
    rcases List.mem_append.mp ho with hmem | hmem
    · have := (List.mem_filter.mp hmem).2
      simp only [otherEmail, bne_iff_ne, ne_eq] at this
      exact this hmatch.1
    · rw [List.mem_singleton] at hmem
      subst hmem
      exact hc1 hmatch.2.1.symm

end OtpServer

namespace OtpServer

/-- C2 witness: the amended theorem applied concretely — after issuing an
OTP for `a@b.com`, the ledger holds exactly one record for that email, and
a differing code `123456` fails verification against that ledger. -/
theorem c2_issue_replaces_witness :
    ((sendOtp (some "a@b.com") (⟨0, by omega⟩ : Fin 900000) 0 .Skipped []).1.filter
        (fun o => o.email == normalizeEmail "a@b.com")
      = [{ email := normalizeEmail "a@b.com", otp := otpCodeOf ⟨0, by omega⟩,
           expires := 0 + fiveMinutesMs }]) ∧
    verifyOtp (some "n") (some (normalizeEmail "a@b.com")) (some "p") (some "123456")
        7 "t" [] "s2" (sendOtp (some "a@b.com") ⟨0, by omega⟩ 0 .Skipped []).1 []
      = some ((sendOtp (some "a@b.com") ⟨0, by omega⟩ 0 .Skipped []).1, [],
          .invalidOtp) := by
  have h := c2_issue_replaces "a@b.com" ⟨0, by omega⟩ 0 .Skipped [] (by decide)
  exact ⟨h.1, h.2.2 "123456" (by decide) "n" "p" 7 "t" [] "s2" []
    (by decide) (by decide) (by decide)⟩

/-- C3: an OTP verifies at most once — after a successful VerifyAndRegister
no record for that email remains in the ledger, and an immediately repeated
call with the same email and code (at any later clock, with any draws or
secret) fails with `InvalidOrExpiredOTP` and leaves the state unchanged. -/
theorem c3_otp_single_use :
    ∀ (nm email pw code : String) (now : Nat) (ca : String)
      (draws : List (Fin 5 → Fin 36)) (secret : String)
      (otps otps' : List OtpRecord) (users users' : List User)
      (u : User) (tok : SessionToken),
      verifyOtp (some nm) (some email) (some pw) (some code) now ca draws secret
          otps users = some (otps', users', .ok u tok) →
      (∀ o ∈ otps', o.email ≠ email) ∧
      (∀ (now2 : Nat) (ca2 : String) (draws2 : List (Fin 5 → Fin 36)) (secret2 : String),
        verifyOtp (some nm) (some email) (some pw) (some code) now2 ca2 draws2 secret2
            otps' users'
          = some (otps', users', .invalidOtp)) := by
  intro nm email pw code now ca draws secret otps otps' users users' u tok h
  obtain ⟨hnm, he, hp, hc, ho, -, -, -, -, -, -, -, -, -, -⟩ := verifyOtp_ok_inv h
  have hnone : ∀ o ∈ otps', o.email ≠ email := by
    intro o hmem
    rw [ho] at hmem
    have := (List.mem_filter.mp hmem).2
    simpa [otherEmail, bne_iff_ne] using this
  refine ⟨hnone, ?_⟩
  intro now2 ca2 draws2 secret2
  refine verifyOtp_invalid_of hnm he hp hc ?_
  intro o hmem hmatch
  exact hnone o hmem hmatch.1

/-- C3 witness: a concrete successful registration consumes the only OTP
record, and the repeated call with the same email and code fails. -/
theorem c3_otp_single_use_witness :
    verifyOtp (some "n") (some "a@b.com") (some "p") (some "123456") 51 "t2" [] "s2"
        []
        [{ id := 50, profile_id := "BGMI-AAAAA", name := "n", email := "a@b.com",
           password_plain := "p", created_at := "t" }]
      = some ([],
          [{ id := 50, profile_id := "BGMI-AAAAA", name := "n", email := "a@b.com",
             password_plain := "p", created_at := "t" }], .invalidOtp) :=
  (c3_otp_single_use "n" "a@b.com" "p" "123456" 50 "t" [fun _ => ⟨0, by omega⟩] "s"
      [{ email := "a@b.com", otp := "123456", expires := 100 }] []
      []
      [{ id := 50, profile_id := "BGMI-AAAAA", name := "n", email := "a@b.com",
         password_plain := "p", created_at := "t" }]
      { id := 50, profile_id := "BGMI-AAAAA", name := "n", email := "a@b.com",
        password_plain := "p", created_at := "t" }
      { accountId := 50, issuedAt := 50, sig := "s" }
      (by decide)).2 51 "t2" [] "s2"

end OtpServer

namespace OtpServer

/-- C4: the expiry of the issued record is issuance time plus 5 minutes
(300000 ms), and whenever every ledger record carrying the given email and
code has an expiry that is not strictly greater than the current time,
verification fails with `InvalidOrExpiredOTP` even though the code
matches. -/
theorem c4_expiry_window :
    (∀ (s : String) (r : Fin 900000) (now : Nat) (oc : DispatchOutcome)
        (otps : List OtpRecord), normalizeEmail s ≠ "" →
        ({ email := normalizeEmail s, otp := otpCodeOf r,
           expires := now + 5 * 60 * 1000 } : OtpRecord)
          ∈ (sendOtp (some s) r now oc otps).1) ∧
    (∀ (nm email pw code : String) (now : Nat) (ca : String)
        (draws : List (Fin 5 → Fin 36)) (secret : String)
        (otps : List OtpRecord) (users : List User),
        nm ≠ "" → email ≠ "" → pw ≠ "" → code ≠ "" →
        (∀ o ∈ otps, o.email = email → o.otp = code → ¬ o.expires > now) →
        verifyOtp (some nm) (some email) (some pw) (some code) now ca draws secret
            otps users
          = some (otps, users, .invalidOtp)) := by
  constructor
  · intro s r now oc otps h
    rw [sendOtp_fst s r now oc otps h]
    exact List.mem_append_right _ (List.mem_singleton.mpr rfl)
  · intro nm email pw code now ca draws secret otps users hnm he hp hc hexp
    refine verifyOtp_invalid_of hnm he hp hc ?_
    intro o hmem hmatch
    exact hexp o hmem hmatch.1 hmatch.2.1 hmatch.2.2

/-- C4 witness: the theorem applied concretely — an OTP issued at time 0
carries expiry 300000, and at time 300000 exactly (not strictly past the
expiry) the matching code is rejected. -/
theorem c4_expiry_window_witness :
    ({ email := normalizeEmail "a@b.com", otp := otpCodeOf ⟨0, by omega⟩,
       expires := 0 + 5 * 60 * 1000 } : OtpRecord)
      ∈ (sendOtp (some "a@b.com") ⟨0, by omega⟩ 0 .Skipped []).1 ∧
    verifyOtp (some "n") (some "a@b.com") (some "p") (some "100000") 300000 "t" [] "s"
        [{ email := "a@b.com", otp := "100000", expires := 300000 }] []
      = some ([{ email := "a@b.com", otp := "100000", expires := 300000 }], [],
          .invalidOtp) :=
  ⟨c4_expiry_window.1 "a@b.com" ⟨0, by omega⟩ 0 .Skipped [] (by decide),
   c4_expiry_window.2 "n" "a@b.com" "p" "100000" 300000 "t" [] "s"
     [{ email := "a@b.com", otp := "100000", expires := 300000 }] []
     (by decide) (by decide) (by decide) (by decide) (by decide)⟩

/-- C5 counterexample: VerifyAndRegister with a valid unexpired OTP
(code `111111`, expiry 10, clock 5) for the already-registered email
`a@b.com` fails with `UserExists`, yet the OTP record is still in the
returned ledger — the claim that the OTP has been consumed (deleted)
before the duplicate-account check is false: the handler only reads the
ledger and deletes on the fully successful path. -/
theorem c5_counterexample :
    verifyOtp (some "n") (some "a@b.com") (some "q") (some "111111") 5 "t" [] "s"
        [{ email := "a@b.com", otp := "111111", expires := 10 }]
        [{ id := 1, profile_id := "BGMI-AAAAA", name := "x", email := "a@b.com",
           password_plain := "p", created_at := "t" }]
      = some ([{ email := "a@b.com", otp := "111111", expires := 10 }],
          [{ id := 1, profile_id := "BGMI-AAAAA", name := "x", email := "a@b.com",
             password_plain := "p", created_at := "t" }],
          .userExists) := by
  decide

/-- C5 (amended): when VerifyAndRegister is called with a valid unexpired
OTP but an already-registered email, it fails with `UserExists` and the
OTP record is NOT consumed — both stores are returned unchanged, the
record remains in the ledger; deletion happens only on the fully
successful registration path. -/
theorem c5_user_exists_keeps_otp :
    ∀ (nm email pw code : String) (now : Nat) (ca : String)
      (draws : List (Fin 5 → Fin 36)) (secret : String)
      (otps : List OtpRecord) (users : List User),
      nm ≠ "" → email ≠ "" → pw ≠ "" → code ≠ "" →
      (∃ rec ∈ otps, rec.email = email ∧ rec.otp = code ∧ rec.expires > now) →
      (∃ v ∈ users, v.email = email) →
      verifyOtp (some nm) (some email) (some pw) (some code) now ca draws secret
          otps users
        = some (otps, users, .userExists) := by
  intro nm email pw code now ca draws secret otps users hnm he hp hc hrec hv
  exact verifyOtp_userExists_of hnm he hp hc hrec hv

/-- C5 witness: the amended theorem applied at a concrete valid-OTP,
existing-user state. -/
theorem c5_user_exists_keeps_otp_witness :
    verifyOtp (some "n") (some "b@c.com") (some "q") (some "222222") 5 "t" [] "s"
        [{ email := "b@c.com", otp := "222222", expires := 9 }]
        [{ id := 2, profile_id := "BGMI-BBBBB", name := "y", email := "b@c.com",
           password_plain := "w", created_at := "t" }]
      = some ([{ email := "b@c.com", otp := "222222", expires := 9 }],
          [{ id := 2, profile_id := "BGMI-BBBBB", name := "y", email := "b@c.com",
             password_plain := "w", created_at := "t" }],
          .userExists) :=
  c5_user_exists_keeps_otp "n" "b@c.com" "q" "222222" 5 "t" [] "s"
    [{ email := "b@c.com", otp := "222222", expires := 9 }]
    [{ id := 2, profile_id := "BGMI-BBBBB", name := "y", email := "b@c.com",
       password_plain := "w", created_at := "t" }]
    (by decide) (by decide) (by decide) (by decide) (by decide) (by decide)

end OtpServer

namespace OtpServer

/-- C6: when an account with the request email already exists, any
VerifyAndRegister attempt leaves the account store unchanged and never
returns a success result; with a valid unexpired OTP and non-empty fields
the failure is specifically `UserExists`; and VerifyAndRegister preserves
the invariant that no two stored accounts share an email. -/
theorem c6_unique_account :
    (∀ (nm email pw code : String) (now : Nat) (ca : String)
        (draws : List (Fin 5 → Fin 36)) (secret : String)
        (otps otps' : List OtpRecord) (users users' : List User)
        (res : VerifyResult) (v : User), v ∈ users → v.email = email →
        verifyOtp (some nm) (some email) (some pw) (some code) now ca draws secret
            otps users = some (otps', users', res) →
        users' = users ∧ ∀ u tok, res ≠ .ok u tok) ∧
    (∀ (nm email pw code : String) (now : Nat) (ca : String)
        (draws : List (Fin 5 → Fin 36)) (secret : String)
        (otps : List OtpRecord) (users : List User),
        nm ≠ "" → email ≠ "" → pw ≠ "" → code ≠ "" →
        (∃ rec ∈ otps, rec.email = email ∧ rec.otp = code ∧ rec.expires > now) →
        (∃ v ∈ users, v.email = email) →
        verifyOtp (some nm) (some email) (some pw) (some code) now ca draws secret
            otps users = some (otps, users, .userExists)) ∧
    (∀ (nm email pw code : String) (now : Nat) (ca : String)
        (draws : List (Fin 5 → Fin 36)) (secret : String)
        (otps otps' : List OtpRecord) (users users' : List User)
        (res : VerifyResult),
        users.Pairwise (fun a b => a.email ≠ b.email) →
        verifyOtp (some nm) (some email) (some pw) (some code) now ca draws secret
            otps users = some (otps', users', res) →
        users'.Pairwise (fun a b => a.email ≠ b.email)) := by
  refine ⟨?_, ?_, ?_⟩
  · intro nm email pw code now ca draws secret otps otps' users users' res v hv hve h
    rcases verifyOtp_state_cases h with ⟨-, hu, hres⟩ | ⟨u, tok, hres, -, -, -, hall⟩
    · refine ⟨hu, ?_⟩
      intro u tok hok
      rcases hres with h1 | h1 | h1 <;> simp [h1] at hok
    · exact absurd hve (hall v hv)
  · intro nm email pw code now ca draws secret otps users hnm he hp hc hrec hv
    exact verifyOtp_userExists_of hnm he hp hc hrec hv
  · intro nm email pw code now ca draws secret otps otps' users users' res hpar h
    rcases verifyOtp_state_cases h with ⟨-, hu, -⟩ | ⟨u, tok, -, -, hu, hue, hall⟩
    · rwa [hu]
    · rw [hu, List.pairwise_append]
      refine ⟨hpar, List.pairwise_singleton _ _, ?_⟩
      intro a ha b hb
      rw [List.mem_singleton] at hb
      subst hb
      rw [hue]
      exact hall a ha

end OtpServer

namespace OtpServer

/-- C6 witness: the theorem applied at a concrete state that already
contains an account for the email — the attempt fails UserExists and the
account store is returned unchanged. -/
theorem c6_unique_account_witness :
    (verifyOtp (some "n") (some "c@d.com") (some "q") (some "333333") 5 "t" [] "s"
        [{ email := "c@d.com", otp := "333333", expires := 9 }]
        [{ id := 3, profile_id := "BGMI-CCCCC", name := "z", email := "c@d.com",
           password_plain := "w", created_at := "t" }]
      = some ([{ email := "c@d.com", otp := "333333", expires := 9 }],
          [{ id := 3, profile_id := "BGMI-CCCCC", name := "z", email := "c@d.com",
             password_plain := "w", created_at := "t" }],
          .userExists)) ∧
    ([{ id := 3, profile_id := "BGMI-CCCCC", name := "z", email := "c@d.com",
        password_plain := "w", created_at := "t" }]
      = [({ id := 3, profile_id := "BGMI-CCCCC", name := "z", email := "c@d.com",
            password_plain := "w", created_at := "t" } : User)]) :=
  ⟨c6_unique_account.2.1 "n" "c@d.com" "q" "333333" 5 "t" [] "s"
      [{ email := "c@d.com", otp := "333333", expires := 9 }]
      [{ id := 3, profile_id := "BGMI-CCCCC", name := "z", email := "c@d.com",
         password_plain := "w", created_at := "t" }]
      (by decide) (by decide) (by decide) (by decide) (by decide) (by decide),
   (c6_unique_account.1 "n" "c@d.com" "q" "333333" 5 "t" [] "s"
      [{ email := "c@d.com", otp := "333333", expires := 9 }]
      [{ email := "c@d.com", otp := "333333", expires := 9 }]
      [{ id := 3, profile_id := "BGMI-CCCCC", name := "z", email := "c@d.com",
         password_plain := "w", created_at := "t" }]
      [{ id := 3, profile_id := "BGMI-CCCCC", name := "z", email := "c@d.com",
         password_plain := "w", created_at := "t" }]
      .userExists
      { id := 3, profile_id := "BGMI-CCCCC", name := "z", email := "c@d.com",
        password_plain := "w", created_at := "t" }
      (by decide) (by decide) (by decide)).1⟩

/-- C7: dispatch failure never aborts OTP issuance — for a non-empty
normalized email the resulting ledger is the same whatever the dispatch
outcome (the record is persisted before dispatch is attempted) and always
contains the fresh record; if the outcome is `Delivered` the response is
the success without the code, and if it is `Failed` or `Skipped` the
response is the success that includes the raw code. -/
theorem c7_dispatch_fallback :
    ∀ (s : String) (r : Fin 900000) (now : Nat) (otps : List OtpRecord),
      normalizeEmail s ≠ "" →
      (∀ oc : DispatchOutcome,
        (sendOtp (some s) r now oc otps).1 = (sendOtp (some s) r now .Delivered otps).1) ∧
      (∀ oc : DispatchOutcome,
        ({ email := normalizeEmail s, otp := otpCodeOf r,
           expires := now + fiveMinutesMs } : OtpRecord)
          ∈ (sendOtp (some s) r now oc otps).1) ∧
      (sendOtp (some s) r now .Delivered otps).2 = .sentNoEcho ∧
      (sendOtp (some s) r now .Failed otps).2 = .screenOtp (otpCodeOf r) ∧
      (sendOtp (some s) r now .Skipped otps).2 = .screenOtp (otpCodeOf r) := by
  intro s r now otps h
  obtain ⟨h1, h2, h3⟩ := sendOtp_snd s r now otps h
  refine ⟨?_, ?_, h1, h2, h3⟩
  · intro oc
    rw [sendOtp_fst s r now oc otps h, sendOtp_fst s r now .Delivered otps h]
  · intro oc
    rw [sendOtp_fst s r now oc otps h]
    exact List.mem_append_right _ (List.mem_singleton.mpr rfl)

/-- C7 witness: the theorem applied at a concrete request — the `Failed`
and `Delivered` ledgers agree, the record is persisted, and the `Failed`
response echoes the raw code while `Delivered` does not. -/
theorem c7_dispatch_fallback_witness :
    ((sendOtp (some "a@b.com") (⟨0, by omega⟩ : Fin 900000) 0 .Failed []).1
      = (sendOtp (some "a@b.com") ⟨0, by omega⟩ 0 .Delivered []).1) ∧
    (sendOtp (some "a@b.com") (⟨0, by omega⟩ : Fin 900000) 0 .Delivered []).2
      = .sentNoEcho ∧
    (sendOtp (some "a@b.com") (⟨0, by omega⟩ : Fin 900000) 0 .Failed []).2
      = .screenOtp (otpCodeOf ⟨0, by omega⟩) := by
  have h := c7_dispatch_fallback "a@b.com" ⟨0, by omega⟩ 0 [] (by decide)
  exact ⟨h.1 .Failed, h.2.2.1, h.2.2.2.1⟩

/-- C8: token round-trip — a session token issued by a successful
VerifyAndRegister or Login, presented to the auth middleware with the same
signing secret at any time within its 7-day validity window, verifies
successfully and yields exactly the account id that was encoded. -/
theorem c8_token_roundtrip :
    (∀ (nm email pw code : String) (now : Nat) (ca : String)
        (draws : List (Fin 5 → Fin 36)) (secret : String)
        (otps otps' : List OtpRecord) (users users' : List User)
        (u : User) (tok : SessionToken),
        verifyOtp (some nm) (some email) (some pw) (some code) now ca draws secret
            otps users = some (otps', users', .ok u tok) →
        ∀ t : Nat, t < tok.issuedAt + sevenDaysMs →
          authMiddleware (some tok) secret t = .ok u.id) ∧
    (∀ (email pw : String) (now : Nat) (secret : String) (users : List User)
        (u : User) (tok : SessionToken),
        login email pw now secret users = .ok u tok →
        ∀ t : Nat, t < tok.issuedAt + sevenDaysMs →
          authMiddleware (some tok) secret t = .ok u.id) := by
  constructor
  · intro nm email pw code now ca draws secret otps otps' users users' u tok h t ht
    obtain ⟨-, -, -, -, -, -, hid, -, -, -, -, htok, -, -, -⟩ := verifyOtp_ok_inv h
    subst htok
    simp only [jwtSign] at ht ⊢
    simp [authMiddleware, jwtVerify, ht, hid]
  · intro email pw now secret users u tok h t ht
    obtain ⟨-, -, -, htok⟩ := login_ok_inv h
    subst htok
    simp only [jwtSign] at ht ⊢
    simp [authMiddleware, jwtVerify, ht]

/-- C8 witness: the theorem applied to a concrete login-issued token —
presented to the middleware at a later time inside the window it yields
the id of the issuing account. -/
theorem c8_token_roundtrip_witness :
    authMiddleware (some { accountId := 1, issuedAt := 0, sig := "s" }) "s" 12345
      = .ok ({ id := 1, profile_id := "BGMI-AAAAA", name := "x", email := "a@b.com",
               password_plain := "p", created_at := "t" } : User).id :=
  c8_token_roundtrip.2 "a@b.com" "p" 0 "s"
    [{ id := 1, profile_id := "BGMI-AAAAA", name := "x", email := "a@b.com",
       password_plain := "p", created_at := "t" }]
    { id := 1, profile_id := "BGMI-AAAAA", name := "x", email := "a@b.com",
      password_plain := "p", created_at := "t" }
    { accountId := 1, issuedAt := 0, sig := "s" } (by decide) 12345 (by decide)

end OtpServer

namespace OtpServer

/-- C9: whenever the profile-id generator returns an id (i.e. some draw of
the retry loop does not collide), that id differs from every profile id
already in the account set and matches the pattern `BGMI-` followed by
exactly five characters of the 36-symbol uppercase-alphanumeric
alphabet. -/
theorem c9_generator_fresh :
    ∀ (users : List User) (draws : List (Fin 5 → Fin 36)) (id : String),
      generateUniqueBGMIId users draws = some id →
      (∀ u ∈ users, u.profile_id ≠ id) ∧ isBgmiId id = true :=
  fun users draws id h => generateUniqueBGMIId_some users draws id h

/-- C9 witness: with one existing account holding BGMI-AAAAA, the first
draw collides, the retry loop takes the second draw and returns the fresh
well-formed id BGMI-BBBBB, which differs from the stored profile id. -/
theorem c9_generator_fresh_witness :
    ({ id := 1, profile_id := "BGMI-AAAAA", name := "x", email := "a@b.com",
       password_plain := "p", created_at := "t" } : User).profile_id ≠ "BGMI-BBBBB" ∧
    isBgmiId "BGMI-BBBBB" = true := by
  have h := c9_generator_fresh
    [{ id := 1, profile_id := "BGMI-AAAAA", name := "x", email := "a@b.com",
       password_plain := "p", created_at := "t" }]
    [fun _ => ⟨0, by omega⟩, fun _ => ⟨1, by omega⟩] "BGMI-BBBBB" (by decide)
  exact ⟨h.1 _ (by decide), h.2⟩

/-- C10: the success responses of VerifyAndRegister and Login carry the
full stored account record — including the plaintext password and the
internal id — while GetProfile returns only the four public fields
(profile id, name, email, creation time). -/
theorem c10_full_record_exposure :
    (∀ (nm email pw code : String) (now : Nat) (ca : String)
        (draws : List (Fin 5 → Fin 36)) (secret : String)
        (otps otps' : List OtpRecord) (users users' : List User)
        (u : User) (tok : SessionToken),
        verifyOtp (some nm) (some email) (some pw) (some code) now ca draws secret
            otps users = some (otps', users', .ok u tok) →
        u ∈ users' ∧ u.password_plain = pw ∧ u.id = now) ∧
    (∀ (email pw : String) (now : Nat) (secret : String) (users : List User)
        (u : User) (tok : SessionToken),
        login email pw now secret users = .ok u tok →
        u ∈ users ∧ u.password_plain = pw) ∧
    (∀ (uid : Nat) (users : List User) (p : ProfileView),
        getProfile uid users = .ok p →
        ∃ u, u ∈ users ∧ u.id = uid ∧
          p = { profile_id := u.profile_id, name := u.name, email := u.email,
                created_at := u.created_at }) := by
  refine ⟨?_, ?_, ?_⟩
  · intro nm email pw code now ca draws secret otps otps' users users' u tok h
    obtain ⟨-, -, -, -, -, hus, hid, -, -, hpw, -, -, -, -, -⟩ := verifyOtp_ok_inv h
    refine ⟨?_, hpw, hid⟩
    rw [hus]
    exact List.mem_append_right _ (List.mem_singleton.mpr rfl)
  · intro email pw now secret users u tok h
    obtain ⟨hm, -, hpw, -⟩ := login_ok_inv h
    exact ⟨hm, hpw⟩
  · intro uid users p h
    exact getProfile_ok_inv h

/-- C10 witness: the theorem applied concretely — a successful
registration and a successful login both return the stored record itself,
plaintext password and internal id included. -/
theorem c10_full_record_exposure_witness :
    (({ id := 50, profile_id := "BGMI-AAAAA", name := "n", email := "a@b.com",
        password_plain := "p", created_at := "t" } : User)
        ∈ [({ id := 50, profile_id := "BGMI-AAAAA", name := "n", email := "a@b.com",
              password_plain := "p", created_at := "t" } : User)] ∧
     ({ id := 50, profile_id := "BGMI-AAAAA", name := "n", email := "a@b.com",
        password_plain := "p", created_at := "t" } : User).password_plain = "p" ∧
     ({ id := 50, profile_id := "BGMI-AAAAA", name := "n", email := "a@b.com",
        password_plain := "p", created_at := "t" } : User).id = 50) ∧
    (({ id := 1, profile_id := "BGMI-CCCCC", name := "x", email := "b@c.com",
        password_plain := "w", created_at := "t" } : User)
        ∈ [({ id := 1, profile_id := "BGMI-CCCCC", name := "x", email := "b@c.com",
              password_plain := "w", created_at := "t" } : User)] ∧
     ({ id := 1, profile_id := "BGMI-CCCCC", name := "x", email := "b@c.com",
        password_plain := "w", created_at := "t" } : User).password_plain = "w") :=
  ⟨c10_full_record_exposure.1 "n" "a@b.com" "p" "123456" 50 "t"
      [fun _ => ⟨0, by omega⟩] "s" [{ email := "a@b.com", otp := "123456", expires := 100 }]
      [] [] [{ id := 50, profile_id := "BGMI-AAAAA", name := "n", email := "a@b.com",
               password_plain := "p", created_at := "t" }]
      { id := 50, profile_id := "BGMI-AAAAA", name := "n", email := "a@b.com",
        password_plain := "p", created_at := "t" }
      { accountId := 50, issuedAt := 50, sig := "s" } (by decide),
   c10_full_record_exposure.2.1 "b@c.com" "w" 0 "s"
      [{ id := 1, profile_id := "BGMI-CCCCC", name := "x", email := "b@c.com",
         password_plain := "w", created_at := "t" }]
      { id := 1, profile_id := "BGMI-CCCCC", name := "x", email := "b@c.com",
        password_plain := "w", created_at := "t" }
      { accountId := 1, issuedAt := 0, sig := "s" } (by decide)⟩

end OtpServer
